import Mathlib

set_option maxHeartbeats 1000000
set_option maxRecDepth 4000

/-!
Shallow embedding of src/lib/plugin-event-handlers.ts of
cypress-cucumber-preprocessor.  The mutable module-level variable
state is made explicit: every handler takes the current state and
returns the new one (or an error, mirroring a thrown exception).
IO side effects that the claims do not touch (console logging, the
pretty-formatter stream internals) are reduced to the data the code
keeps about them (for the pretty channel: only its enabled flag).
The persisted message log file is modelled as Option (List Envelope),
none meaning the file does not exist.
-/

/-- Character-wise model of the JS string startsWith. -/
def strStartsWith (s pat : String) : Bool :=
  pat.data.isPrefixOf s.data

/-- Character-wise model of the JS string endsWith. -/
def strEndsWith (s pat : String) : Bool :=
  pat.data.isSuffixOf s.data

/-- Character-wise model of dropping the first n characters of a string. -/
def strDrop (s : String) (n : Nat) : String :=
  String.mk (s.data.drop n)

/-- Character count of a string. -/
def strLen (s : String) : Nat := s.data.length

/-- The base64 alphabet, as used by Node Buffer.toString with base64. -/
def base64Table : List Char :=
  "ABCDEFGHIJKLMNOPQRSTUVWXYZabcdefghijklmnopqrstuvwxyz0123456789+/".data

/-- The base64 digit for a 6-bit value. -/
def base64Digit (n : Nat) : Char := base64Table.getD n '='

/-- Standard base64 encoding (with padding) of a byte list; model of Node
Buffer.toString with base64, used for screenshot contents and Buffer
attachments. -/
def base64Encode : List Nat → List Char
  | [] => []
  | [a] => [base64Digit (a / 4), base64Digit (a % 4 * 16), '=', '=']
  | [a, b] =>
      [base64Digit (a / 4), base64Digit (a % 4 * 16 + b / 16),
       base64Digit (b % 16 * 4), '=']
  | a :: b :: c :: rest =>
      base64Digit (a / 4) :: base64Digit (a % 4 * 16 + b / 16) ::
      base64Digit (b % 16 * 4 + c / 64) :: base64Digit (c % 64) ::
      base64Encode rest

/-- base64 encoding of a byte list, as a string. -/
def base64EncodeString (bytes : List Nat) : String :=
  String.mk (base64Encode bytes)

/-- Payload of a meta envelope (environment identification, supplied by the
host environment at run start). -/
structure Meta where
  protocolVersion : String
  implementationName : String
  implementationVersion : String
  cpuName : String
  osName : String
  osVersion : String
  runtimeName : String
  runtimeVersion : String
deriving DecidableEq, Repr

/-- Payload of a testRunStarted envelope (timestamps are abstracted to Nat). -/
structure TestRunStarted where
  timestamp : Nat
deriving DecidableEq, Repr

/-- Payload of a testRunFinished envelope.  The code constructs it with a
timestamp only and deliberately no success flag; the optional success field
records that omission. -/
structure TestRunFinished where
  timestamp : Nat
  success : Option Bool
deriving DecidableEq, Repr

/-- Payload of a testCaseStarted envelope (ITaskTestCaseStarted); the code
reads its id and testCaseId fields. -/
structure TestCaseStarted where
  id : String
  testCaseId : String
deriving DecidableEq, Repr

/-- Payload of a testStepStarted envelope (ITaskTestStepStarted). -/
structure TestStepStarted where
  testCaseStartedId : String
  testStepId : String
deriving DecidableEq, Repr

/-- A test step result, passed through to the step hook; opaque here. -/
structure TestStepResult where
  status : String
deriving DecidableEq, Repr

/-- Payload of a testStepFinished envelope (ITaskTestStepFinished). -/
structure TestStepFinished where
  testCaseStartedId : String
  testStepId : String
  testStepResult : TestStepResult
deriving DecidableEq, Repr

/-- Payload of a testCaseFinished envelope (ITaskTestCaseFinished). -/
structure TestCaseFinished where
  testCaseStartedId : String
deriving DecidableEq, Repr

/-- A step of a testCase envelope: either a scenario step (pickleStepId set)
or a fixture step (hookId set). -/
structure TestStep where
  id : String
  pickleStepId : Option String
  hookId : Option String
deriving DecidableEq, Repr

/-- Payload of a testCase envelope; its id is a pickle id. -/
structure TestCase where
  id : String
  testSteps : List TestStep
deriving DecidableEq, Repr

/-- A step of a pickle (compiled scenario). -/
structure PickleStep where
  id : String
deriving DecidableEq, Repr

/-- Payload of a pickle (compiled scenario) envelope. -/
structure Pickle where
  id : String
  uri : String
  steps : List PickleStep
deriving DecidableEq, Repr

/-- Payload of a gherkinDocument envelope; matched against pickles by uri. -/
structure GherkinDocument where
  uri : String
deriving DecidableEq, Repr

/-- messages.AttachmentContentEncoding. -/
inductive AttachmentContentEncoding
  | IDENTITY
  | BASE64
deriving DecidableEq, Repr

/-- Payload of an attachment envelope. -/
structure Attachment where
  testCaseStartedId : String
  testStepId : String
  body : String
  mediaType : String
  contentEncoding : AttachmentContentEncoding
deriving DecidableEq, Repr

/-- messages.Envelope: a closed tagged union; exactly one variant is set,
so it is embedded as an inductive. -/
inductive Envelope
  | meta (m : Meta)
  | testRunStarted (t : TestRunStarted)
  | testRunFinished (t : TestRunFinished)
  | gherkinDocument (d : GherkinDocument)
  | pickle (p : Pickle)
  | testCase (t : TestCase)
  | testCaseStarted (t : TestCaseStarted)
  | testStepStarted (t : TestStepStarted)
  | testStepFinished (t : TestStepFinished)
  | testCaseFinished (t : TestCaseFinished)
  | attachment (a : Attachment)
deriving DecidableEq, Repr

/-- Field access message.testCaseStarted of the JS envelope record. -/
def Envelope.testCaseStarted? : Envelope → Option TestCaseStarted
  | .testCaseStarted t => some t
  | _ => none

/-- Field access message.testCase of the JS envelope record. -/
def Envelope.testCase? : Envelope → Option TestCase
  | .testCase t => some t
  | _ => none

/-- Field access message.pickle of the JS envelope record. -/
def Envelope.pickle? : Envelope → Option Pickle
  | .pickle p => some p
  | _ => none

/-- Field access message.gherkinDocument of the JS envelope record. -/
def Envelope.gherkinDocument? : Envelope → Option GherkinDocument
  | .gherkinDocument d => some d
  | _ => none

/-- The pretty (live formatter) channel: the code keeps a broadcaster and a
writable stream when enabled; only the enabled flag is data the claims can
observe, the streams being IO handles. -/
inductive PrettyState
  | disabled
  | enabled
deriving DecidableEq, Repr

/-- Whether the pretty channel is enabled. -/
def PrettyState.isEnabled : PrettyState → Bool
  | .disabled => false
  | .enabled => true

/-- The State union of the source: eight mutually exclusive variants. -/
inductive State
  | initial
  | beforeSpec (pretty : PrettyState)
  | receivedEnvelopes (pretty : PrettyState) (messages : List Envelope)
  | testStarted (pretty : PrettyState) (messages : List Envelope)
      (testCaseStartedId : String)
  | stepStarted (pretty : PrettyState) (messages : List Envelope)
      (testCaseStartedId : String) (testStepStartedId : String)
  | stepFinished (pretty : PrettyState) (messages : List Envelope)
      (testCaseStartedId : String)
  | testFinished (pretty : PrettyState) (messages : List Envelope)
  | afterSpec
deriving DecidableEq, Repr

/-- The state discriminant string, as stored in the state field of each
variant in the source. -/
def stateName : State → String
  | .initial => "initial"
  | .beforeSpec _ => "before-spec"
  | .receivedEnvelopes _ _ => "received-envelopes"
  | .testStarted _ _ _ => "test-started"
  | .stepStarted _ _ _ _ => "step-started"
  | .stepFinished _ _ _ => "step-finished"
  | .testFinished _ _ => "test-finished"
  | .afterSpec => "after-spec"

/-- The JS membership test for the messages field of the state record. -/
def State.messages? : State → Option (List Envelope)
  | .receivedEnvelopes _ m => some m
  | .testStarted _ m _ => some m
  | .stepStarted _ m _ _ => some m
  | .stepFinished _ m _ => some m
  | .testFinished _ m => some m
  | _ => none

/-- The JS membership test for the pretty field of the state record. -/
def State.pretty? : State → Option PrettyState
  | .beforeSpec p => some p
  | .receivedEnvelopes p _ => some p
  | .testStarted p _ _ => some p
  | .stepStarted p _ _ _ => some p
  | .stepFinished p _ _ => some p
  | .testFinished p _ => some p
  | _ => none

/-- Access to state.messages (defaulting to the empty buffer where the
variant carries none). -/
def State.messagesD (s : State) : List Envelope :=
  (State.messages? s).getD []

/-- Access to state.pretty (defaulting to disabled where absent). -/
def State.prettyD (s : State) : PrettyState :=
  (State.pretty? s).getD .disabled

/-- Access to state.testCaseStartedId on the variants carrying it. -/
def State.testCaseStartedIdD : State → String
  | .testStarted _ _ i => i
  | .stepStarted _ _ i _ => i
  | .stepFinished _ _ i => i
  | _ => ""

/-- Whether the state carries an enabled pretty channel. -/
def prettyOpen (s : State) : Bool :=
  match State.pretty? s with
  | some p => p.isEnabled
  | none => false

/-- Errors thrown by the handlers: CypressCucumberError (state and assertion
errors) and plain JS Error (attachment shape errors). -/
inductive Err
  | cypressCucumberError (message : String)
  | plainError (message : String)
deriving DecidableEq, Repr

/-- The message carried by an error. -/
def Err.message : Err → String
  | .cypressCucumberError m => m
  | .plainError m => m

/-- The homepage constant of helpers/error (referenced in error messages). -/
def homepage : String :=
  "https://github.com/badeball/cypress-cucumber-preprocessor"

/-- The fixed explanatory tail of a state error message (abbreviated text of
the guidance that external code likely interfered with handler
registration). -/
def stateErrorTail : String :=
  ". This almost always means that you or some other plugin are overwriting the event handlers of this plugin. For more information and workarounds, see the event-handlers documentation (if neither workaround works, please report at " ++ homepage ++ ")"

/-- createStateError of the source: a CypressCucumberError whose message
names the offending handler and the current state. -/
def createStateError (stateHandler : String) (currentState : String) : Err :=
  .cypressCucumberError
    ("Unexpected state in " ++ stateHandler ++ ": " ++ currentState ++ stateErrorTail)

/-- createError of helpers/error: a CypressCucumberError with the given
message. -/
def createError (message : String) : Err :=
  .cypressCucumberError message

/-- assertAndReturn of helpers/assertions: unwrap an optional value or throw. -/
def assertAndReturn (value : Option α) (message : String) : Except Err α :=
  match value with
  | some v => .ok v
  | none => .error (createError message)

/-- The slice of Cypress.PluginConfigOptions the handlers read. -/
structure Config where
  isTextTerminal : Bool
deriving DecidableEq, Repr

/-- An enabled flag of one resolved output kind. -/
structure OutputFlag where
  enabled : Bool
deriving DecidableEq, Repr

/-- The slice of the resolved preprocessor configuration the handlers read. -/
structure Preprocessor where
  messages : OutputFlag
  json : OutputFlag
  html : OutputFlag
  pretty : OutputFlag
deriving DecidableEq, Repr

/-- The slice of Cypress.Spec the handlers read. -/
structure Spec where
  name : String
deriving DecidableEq, Repr

/-- isFeature of the source: whether the spec name ends in .feature. -/
def isFeature (spec : Spec) : Bool :=
  strEndsWith spec.name ".feature"

/-- One entry of CypressCommandLine.RunResult.tests. -/
structure TestResult where
  displayError : Option String
deriving DecidableEq, Repr

/-- The slice of CypressCommandLine.RunResult the handlers read. -/
structure RunResult where
  tests : List TestResult
deriving DecidableEq, Repr

/-- The slice of Cypress.ScreenshotDetails the handlers read. -/
structure ScreenshotDetails where
  path : String
deriving DecidableEq, Repr

/-- The persisted message log file: none when absent.  Appending (writeFile
with the append flag) creates the file when missing. -/
def appendToLog (log : Option (List Envelope)) (msgs : List Envelope) :
    Option (List Envelope) :=
  some (log.getD [] ++ msgs)

/-- ITaskSpecEnvelopes. -/
structure ITaskSpecEnvelopes where
  messages : List Envelope
deriving DecidableEq, Repr

/-- ITaskCreateStringAttachment. -/
structure ITaskCreateStringAttachment where
  data : String
  mediaType : String
  encoding : AttachmentContentEncoding
deriving DecidableEq, Repr

/-- beforeSpecHandler of the source. -/
def beforeSpecHandler (config : Config) (preprocessor : Preprocessor)
    (spec : Spec) (s : State) : Except Err State :=
  if !config.isTextTerminal || !isFeature spec then .ok s
  else if !preprocessor.messages.enabled && !preprocessor.pretty.enabled then .ok s
  else
    match s with
    | .initial | .afterSpec =>
        if preprocessor.pretty.enabled then .ok (.beforeSpec .enabled)
        else .ok (.beforeSpec .disabled)
    | .beforeSpec _ => .ok s
    | .stepStarted _ _ _ _ => .ok s
    | _ => .error (createStateError "beforeSpecHandler" (stateName s))

/-- The wasRemainingSkipped test of afterSpecHandler: whether some test
result has a displayError matching HOOK_FAILURE_EXPR.  The regular
expression itself lives in constants (outside the embedded file) and is
abstracted as a predicate on the error text. -/
def wasRemainingSkipped (matchHookFailure : String → Bool) (results : RunResult) :
    Bool :=
  results.tests.any (fun t =>
    match t.displayError with
    | some e => matchHookFailure e
    | none => false)

/-- The observable outcome of afterSpecHandler: the new state, the message
log file, whether the hook-failure notice was printed, and whether an open
pretty channel was ended. -/
structure AfterSpecOutcome where
  state : State
  log : Option (List Envelope)
  hookFailureNotice : Bool
  prettyClosed : Bool
deriving DecidableEq, Repr

/-- afterSpecHandler of the source.  results is none when running via
cypress open. -/
def afterSpecHandler (config : Config) (preprocessor : Preprocessor)
    (matchHookFailure : String → Bool) (spec : Spec)
    (results : Option RunResult) (s : State) (log : Option (List Envelope)) :
    AfterSpecOutcome :=
  if !config.isTextTerminal || !isFeature spec then
    { state := s, log := log, hookFailureNotice := false, prettyClosed := false }
  else
    let flushed : Option (List Envelope) × Bool :=
      match results with
      | some r =>
          if preprocessor.messages.enabled then
            if wasRemainingSkipped matchHookFailure r then (log, true)
            else
              match State.messages? s with
              | some msgs => (appendToLog log msgs, false)
              | none => (log, false)
          else (log, false)
      | none => (log, false)
    { state := .afterSpec
      log := flushed.1
      hookFailureNotice := flushed.2
      prettyClosed := prettyOpen s }

/-- afterScreenshotHandler of the source.  fileBytes is the outcome of
reading the screenshot file at details.path: none when the read fails.
Returns the new state and the returned details value. -/
def afterScreenshotHandler (config : Config) (preprocessor : Preprocessor)
    (details : ScreenshotDetails) (fileBytes : Option (List Nat))
    (s : State) : State × ScreenshotDetails :=
  if !config.isTextTerminal then (s, details)
  else if !preprocessor.messages.enabled then (s, details)
  else
    match s with
    | .stepStarted pretty msgs tcId tsId =>
        match fileBytes with
        | none => (s, details)
        | some buffer =>
            (.stepStarted pretty
              (msgs ++ [.attachment
                { testCaseStartedId := tcId
                  testStepId := tsId
                  body := base64EncodeString buffer
                  mediaType := "image/png"
                  contentEncoding := .BASE64 }])
              tcId tsId,
             details)
    | _ => (s, details)

/-- findLastIndex of JS arrays: the index of the last element satisfying the
predicate, none when there is none. -/
def findLastIndex (p : α → Bool) : List α → Option Nat
  | [] => none
  | x :: xs =>
      match findLastIndex p xs with
      | some i => some (i + 1)
      | none => if p x then some 0 else none

/-- specEnvelopesHandler of the source.  In before-spec the buffer becomes
the received envelopes; in step-started (the reload anomaly) the buffer is
truncated at the last testCaseStarted envelope, and the received envelopes
are only replayed into a fresh pretty channel. -/
def specEnvelopesHandler (config : Config) (data : ITaskSpecEnvelopes)
    (s : State) : Except Err State :=
  if !config.isTextTerminal then .ok s
  else
    match s with
    | .beforeSpec pretty => .ok (.receivedEnvelopes pretty data.messages)
    | .stepStarted pretty msgs _ _ =>
        match findLastIndex (fun m => (Envelope.testCaseStarted? m).isSome) msgs with
        | none => .error (createError "Expected to find a testCaseStarted envelope")
        | some i => .ok (.receivedEnvelopes pretty (msgs.take i))
    | _ => .error (createStateError "specEnvelopesHandler" (stateName s))

/-- testCaseStartedHandler of the source. -/
def testCaseStartedHandler (config : Config) (data : TestCaseStarted)
    (s : State) : Except Err State :=
  if !config.isTextTerminal then .ok s
  else
    match s with
    | .receivedEnvelopes pretty msgs =>
        .ok (.testStarted pretty (msgs ++ [.testCaseStarted data]) data.id)
    | .testFinished pretty msgs =>
        .ok (.testStarted pretty (msgs ++ [.testCaseStarted data]) data.id)
    | _ => .error (createStateError "testCaseStartedHandler" (stateName s))

/-- testStepStartedHandler of the source; step-started is a legal source
state (an error being rescued). -/
def testStepStartedHandler (config : Config) (data : TestStepStarted)
    (s : State) : Except Err State :=
  if !config.isTextTerminal then .ok s
  else
    match s with
    | .testStarted pretty msgs tcId =>
        .ok (.stepStarted pretty (msgs ++ [.testStepStarted data]) tcId
          data.testStepId)
    | .stepFinished pretty msgs tcId =>
        .ok (.stepStarted pretty (msgs ++ [.testStepStarted data]) tcId
          data.testStepId)
    | .stepStarted pretty msgs tcId _ =>
        .ok (.stepStarted pretty (msgs ++ [.testStepStarted data]) tcId
          data.testStepId)
    | _ => .error (createStateError "testStepStartedHandler" (stateName s))

/-- testCaseFinishedHandler of the source. -/
def testCaseFinishedHandler (config : Config) (data : TestCaseFinished)
    (s : State) : Except Err State :=
  if !config.isTextTerminal then .ok s
  else
    match s with
    | .testStarted pretty msgs _ =>
        .ok (.testFinished pretty (msgs ++ [.testCaseFinished data]))
    | .stepFinished pretty msgs _ =>
        .ok (.testFinished pretty (msgs ++ [.testCaseFinished data]))
    | _ => .error (createStateError "testCaseFinishedHandler" (stateName s))

/-- createStringAttachmentHandler of the source. -/
def createStringAttachmentHandler (config : Config)
    (preprocessor : Preprocessor) (task : ITaskCreateStringAttachment)
    (s : State) : Except Err State :=
  if !config.isTextTerminal then .ok s
  else if !preprocessor.messages.enabled then .ok s
  else
    match s with
    | .stepStarted pretty msgs tcId tsId =>
        .ok (.stepStarted pretty
          (msgs ++ [.attachment
            { testCaseStartedId := tcId
              testStepId := tsId
              body := task.data
              mediaType := task.mediaType
              contentEncoding := task.encoding }])
          tcId tsId)
    | _ => .error (createStateError "createStringAttachmentHandler" (stateName s))

/-- The argument shapes accepted by the attach capability handed to the step
hook: a JS string or a Node Buffer (a byte list). -/
inductive AttachData
  | str (s : String)
  | buf (b : List Nat)
deriving DecidableEq, Repr

/-- The attach capability defined inside testStepFinishedHandler: validates
the shape and produces the task pushed onto the attachments list, or throws.
A media type carrying the base64 marker is stripped of it (the guarded JS
replace of the first occurrence equals dropping the marker-length
characters). -/
def attach (data : AttachData) (mediaType : Option String) :
    Except Err ITaskCreateStringAttachment :=
  match data with
  | .str s =>
      let mt := mediaType.getD "text/plain"
      if strStartsWith mt "base64:" then
        .ok { data := s, mediaType := strDrop mt (strLen "base64:"),
              encoding := .BASE64 }
      else
        .ok { data := s, mediaType := mt, encoding := .IDENTITY }
  | .buf b =>
      match mediaType with
      | some mt =>
          .ok { data := base64EncodeString b, mediaType := mt,
                encoding := .BASE64 }
      | none => .error (.plainError "Buffer attachments must specify a media type")

/-- The attachments list accumulated by the step hook calling attach; a
throwing call aborts the hook, so the whole collection fails. -/
def collectAttachments :
    List (AttachData × Option String) →
    Except Err (List ITaskCreateStringAttachment)
  | [] => .ok []
  | (d, mt) :: rest => do
      let a ← attach d mt
      let as1 ← collectAttachments rest
      .ok (a :: as1)

/-- The loop of testStepFinishedHandler feeding each accumulated attachment
through createStringAttachmentHandler. -/
def applyStringAttachments (config : Config) (preprocessor : Preprocessor) :
    List ITaskCreateStringAttachment → State → Except Err State
  | [], s => .ok s
  | task :: rest, s => do
      let s1 ← createStringAttachmentHandler config preprocessor task s
      applyStringAttachments config preprocessor rest s1

/-- The testCaseStarted lookup of testStepFinishedHandler: a JS find over
the buffer, selecting the first envelope whose payload has the given id. -/
def findTestCaseStarted (msgs : List Envelope) (targetId : String) :
    Option TestCaseStarted :=
  (msgs.filterMap Envelope.testCaseStarted?).find? (fun t => t.id == targetId)

/-- The testCase lookup of testStepFinishedHandler (first match). -/
def findTestCase (msgs : List Envelope) (targetId : String) : Option TestCase :=
  (msgs.filterMap Envelope.testCase?).find? (fun t => t.id == targetId)

/-- The pickle lookup of testStepFinishedHandler (first match). -/
def findPickle (msgs : List Envelope) (targetId : String) : Option Pickle :=
  (msgs.filterMap Envelope.pickle?).find? (fun p => p.id == targetId)

/-- The gherkinDocument lookup of testStepFinishedHandler (first match, by
uri equality with the pickle uri). -/
def findGherkinDocument (msgs : List Envelope) (uri : String) :
    Option GherkinDocument :=
  (msgs.filterMap Envelope.gherkinDocument?).find? (fun g => g.uri == uri)

/-- testStepFinishedHandler of the source.  The step hook (onAfterStep) is
abstracted by the sequence of attach calls it performs; an absent hook is
the empty sequence.  Cross references are resolved against the buffer, the
hook attachments are recorded through createStringAttachmentHandler, and
the testStepFinished envelope is appended to the then-current buffer. -/
def testStepFinishedHandler (config : Config) (preprocessor : Preprocessor)
    (attachCalls : List (AttachData × Option String))
    (tsf : TestStepFinished) (s : State) : Except Err State :=
  if !config.isTextTerminal then .ok s
  else
    match s with
    | .stepStarted pretty msgs tcId tsId => do
        let tcs ← assertAndReturn (findTestCaseStarted msgs tsf.testCaseStartedId)
          "Expected to find a testCaseStarted"
        let testCase ← assertAndReturn (findTestCase msgs tcs.testCaseId)
          "Expected to find a testCase"
        let testStep ← assertAndReturn
          (testCase.testSteps.find? (fun t => t.id == tsf.testStepId))
          "Expected to find a testStep"
        match testStep.pickleStepId with
        | some pickleStepId => do
            let pickle ← assertAndReturn (findPickle msgs tcs.testCaseId)
              "Expected to find a pickle"
            let _pickleStep ← assertAndReturn
              (pickle.steps.find? (fun st => st.id == pickleStepId))
              "Expected to find a pickleStep"
            let _doc ← assertAndReturn (findGherkinDocument msgs pickle.uri)
              "Expected to find a gherkinDocument"
            let attachments ← collectAttachments attachCalls
            let s1 ← applyStringAttachments config preprocessor attachments
              (State.stepStarted pretty msgs tcId tsId)
            .ok (.stepFinished (State.prettyD s1)
              (State.messagesD s1 ++ [.testStepFinished tsf])
              (State.testCaseStartedIdD s1))
        | none =>
            match testStep.hookId with
            | some _ =>
                .ok (.stepFinished pretty (msgs ++ [.testStepFinished tsf]) tcId)
            | none =>
                .error (createError "Expected a hookId in absence of pickleStepId")
    | _ => .error (createStateError "testStepFinishedHandler" (stateName s))

/-- The lifecycle notifications whose handlers mutate the state and can
throw a state error (spec-finished and screenshot-captured have handlers of
a different shape and never throw a state error). -/
inductive Event
  | specAboutToStart (spec : Spec)
  | specEnvelopesReceived (data : ITaskSpecEnvelopes)
  | testCaseStartedReceived (data : TestCaseStarted)
  | testStepStartedReceived (data : TestStepStarted)
  | testStepFinishedReceived (attachCalls : List (AttachData × Option String))
      (data : TestStepFinished)
  | testCaseFinishedReceived (data : TestCaseFinished)
  | stringAttachmentRequested (data : ITaskCreateStringAttachment)
deriving Repr

/-- The name of the handler function invoked for each event. -/
def handlerName : Event → String
  | .specAboutToStart _ => "beforeSpecHandler"
  | .specEnvelopesReceived _ => "specEnvelopesHandler"
  | .testCaseStartedReceived _ => "testCaseStartedHandler"
  | .testStepStartedReceived _ => "testStepStartedHandler"
  | .testStepFinishedReceived _ _ => "testStepFinishedHandler"
  | .testCaseFinishedReceived _ => "testCaseFinishedHandler"
  | .stringAttachmentRequested _ => "createStringAttachmentHandler"

/-- Dispatch of an event to its handler. -/
def handlerRun (config : Config) (preprocessor : Preprocessor) :
    Event → State → Except Err State
  | .specAboutToStart spec, s => beforeSpecHandler config preprocessor spec s
  | .specEnvelopesReceived data, s => specEnvelopesHandler config data s
  | .testCaseStartedReceived data, s => testCaseStartedHandler config data s
  | .testStepStartedReceived data, s => testStepStartedHandler config data s
  | .testStepFinishedReceived calls data, s =>
      testStepFinishedHandler config preprocessor calls data s
  | .testCaseFinishedReceived data, s => testCaseFinishedHandler config data s
  | .stringAttachmentRequested data, s =>
      createStringAttachmentHandler config preprocessor data s

/-- The module-level state cell across one handler invocation: a thrown
error leaves the previous state in place. -/
def machineStep (config : Config) (preprocessor : Preprocessor) (e : Event)
    (s : State) : State :=
  match handlerRun config preprocessor e s with
  | .ok s1 => s1
  | .error _ => s

/-- Modelled from the spec: the legal source states of each event per the
transition table of section 4.1 (both spec-about-to-start rows count as
legal). -/
def specLegalFrom : Event → State → Bool
  | .specAboutToStart _, .initial => true
  | .specAboutToStart _, .afterSpec => true
  | .specAboutToStart _, .beforeSpec _ => true
  | .specAboutToStart _, .stepStarted _ _ _ _ => true
  | .specEnvelopesReceived _, .beforeSpec _ => true
  | .specEnvelopesReceived _, .stepStarted _ _ _ _ => true
  | .testCaseStartedReceived _, .receivedEnvelopes _ _ => true
  | .testCaseStartedReceived _, .testFinished _ _ => true
  | .testStepStartedReceived _, .testStarted _ _ _ => true
  | .testStepStartedReceived _, .stepFinished _ _ _ => true
  | .testStepStartedReceived _, .stepStarted _ _ _ _ => true
  | .testStepFinishedReceived _ _, .stepStarted _ _ _ _ => true
  | .testCaseFinishedReceived _, .testStarted _ _ _ => true
  | .testCaseFinishedReceived _, .stepFinished _ _ _ => true
  | .stringAttachmentRequested _, .stepStarted _ _ _ _ => true
  | _, _ => false

/-- The per-event pass-through guard applied before any state inspection:
spec-about-to-start additionally ignores non-feature specs. -/
def eventGuard : Event → Bool
  | .specAboutToStart spec => isFeature spec
  | _ => true

/-- beforeRunHandler of the source, restricted to its effect on the
persisted message log file: when in text-terminal mode with message output
enabled, the file is removed and rewritten to exactly the meta envelope
followed by the testRunStarted envelope. -/
def beforeRunFile (config : Config) (preprocessor : Preprocessor) (m : Meta)
    (timestamp : Nat) (file : Option (List Envelope)) :
    Option (List Envelope) :=
  if !config.isTextTerminal then file
  else if !preprocessor.messages.enabled then file
  else some [.meta m, .testRunStarted { timestamp := timestamp }]

/-- afterRunHandler of the source, restricted to its effect on the persisted
message log file: when any report output is enabled and the file exists,
message output appends a testRunFinished envelope carrying a timestamp and
no success flag (the json and html passes only read the file). -/
def afterRunFile (config : Config) (preprocessor : Preprocessor)
    (timestamp : Nat) (file : Option (List Envelope)) :
    Option (List Envelope) :=
  if !config.isTextTerminal then file
  else if !preprocessor.messages.enabled && !preprocessor.json.enabled
      && !preprocessor.html.enabled then file
  else
    match file with
    | none => file
    | some l =>
        if preprocessor.messages.enabled then
          some (l ++ [.testRunFinished { timestamp := timestamp, success := none }])
        else some l

/-- The message log file after a sequence of afterSpecHandler invocations
(one per finished spec), threaded through the log. -/
def specFlushLog (config : Config) (preprocessor : Preprocessor)
    (matchHookFailure : String → Bool)
    (steps : List (Spec × Option RunResult × State))
    (log : Option (List Envelope)) : Option (List Envelope) :=
  steps.foldl
    (fun l step =>
      (afterSpecHandler config preprocessor matchHookFailure
        step.1 step.2.1 step.2.2 l).log)
    log

/-- The reload-anomaly sequence of claim C1: test-case-started, then
test-step-started, then static-scenario-data-received, starting from the
given state. -/
def reloadSequence (config : Config) (tc : TestCaseStarted)
    (ts : TestStepStarted) (data : ITaskSpecEnvelopes) (s : State) :
    Except Err State := do
  let s1 ← testCaseStartedHandler config tc s
  let s2 ← testStepStartedHandler config ts s1
  specEnvelopesHandler config data s2

/-- Decidable equality of handler results, for evaluating the handlers on
concrete inputs. -/
instance {ε α : Type} [DecidableEq ε] [DecidableEq α] : DecidableEq (Except ε α)
  | .ok a, .ok b =>
      if h : a = b then .isTrue (by simp [h]) else .isFalse (by simp [h])
  | .ok _, .error _ => .isFalse (by simp)
  | .error _, .ok _ => .isFalse (by simp)
  | .error a, .error b =>
      if h : a = b then .isTrue (by simp [h]) else .isFalse (by simp [h])

/-- Modelled from the spec: the last-matching testCaseStarted lookup the
spec describes for test-step-finished resolution, scanning the buffer from
the end object (most recent wins); stated for comparison with the lookup
the source performs. -/
def specFindLastTestCaseStarted (msgs : List Envelope) (targetId : String) :
    Option TestCaseStarted :=
  (msgs.filterMap Envelope.testCaseStarted?).reverse.find? (fun t => t.id == targetId)

/-- Modelled from the spec: the last-matching pickle (compiledScenario)
lookup, scanning the buffer from the end; stated for comparison with the
lookup the source performs. -/
def specFindLastPickle (msgs : List Envelope) (targetId : String) :
    Option Pickle :=
  (msgs.filterMap Envelope.pickle?).reverse.find? (fun p => p.id == targetId)

/-- A concrete hook-failure matcher for evaluating the handlers: every
display error counts as a hook failure. -/
def hookFailureAlways : String → Bool := fun _ => true

/-- A concrete hook-failure matcher for evaluating the handlers: no display
error counts as a hook failure. -/
def hookFailureNever : String → Bool := fun _ => false

/-- findLastIndex of a list ending in a hit followed by a miss is the index
of that hit. -/
theorem findLastIndex_append_pair (p : α → Bool) (E : List α) (a b : α)
    (ha : p a = true) (hb : p b = false) :
    findLastIndex p (E ++ [a, b]) = some E.length := by
  induction E with
  | nil => simp [findLastIndex, ha, hb]
  | cons x xs ih => simp [findLastIndex, ih]

/-- C1, counterexample: after test-case-started, test-step-started and then
static-scenario-data-received, the resulting buffer is the prior static
buffer (here the old gherkinDocument envelope), not the newly supplied
envelopes (here a different gherkinDocument envelope), so the buffer does
not consist of the newly supplied compiledScenario/document envelopes. -/
theorem C1_counterexample :
    reloadSequence { isTextTerminal := true }
      { id := "tc1", testCaseId := "p1" }
      { testCaseStartedId := "tc1", testStepId := "st1" }
      { messages := [.gherkinDocument { uri := "new.feature" }] }
      (.receivedEnvelopes .disabled [.gherkinDocument { uri := "old.feature" }])
    = .ok (.receivedEnvelopes .disabled
        [.gherkinDocument { uri := "old.feature" }])
    ∧ [Envelope.gherkinDocument { uri := "old.feature" }]
      ≠ [Envelope.gherkinDocument { uri := "new.feature" }] := by
  decide

/-- C1, amended: for the reload sequence test-case-started, then
test-step-started, then static-scenario-data-received, the resulting
received-scenario-data buffer is exactly the buffer held before the test
case began (the truncation at the last testCaseStarted envelope discards
the testCaseStarted and testStepStarted envelopes of the rolled-back test
case); the newly received envelopes are not stored in the buffer. -/
theorem C1_reload_rollback (config : Config) (p : PrettyState)
    (E : List Envelope) (tc : TestCaseStarted) (ts : TestStepStarted)
    (data : ITaskSpecEnvelopes) (s : State)
    (hT : config.isTextTerminal = true)
    (hs : s = .receivedEnvelopes p E ∨ s = .testFinished p E) :
    reloadSequence config tc ts data s = .ok (.receivedEnvelopes p E) := by
  have key : findLastIndex (fun m => (Envelope.testCaseStarted? m).isSome)
      (E ++ [.testCaseStarted tc, .testStepStarted ts]) = some E.length :=
    findLastIndex_append_pair _ E _ _ (by simp [Envelope.testCaseStarted?])
      (by simp [Envelope.testCaseStarted?])
  rcases hs with hs | hs <;>
    subst hs <;>
    simp [reloadSequence, testCaseStartedHandler, testStepStartedHandler,
      specEnvelopesHandler, hT, Bind.bind, Except.bind, key, List.take_left]

/-- C1, witness for the amended theorem at a concrete input. -/
theorem C1_reload_rollback_witness :
    reloadSequence { isTextTerminal := true }
      { id := "tc2", testCaseId := "p2" }
      { testCaseStartedId := "tc2", testStepId := "st2" }
      { messages := [.pickle { id := "p2", uri := "u2", steps := [] }] }
      (.receivedEnvelopes .enabled [.pickle { id := "p2", uri := "u2", steps := [] }])
    = .ok (.receivedEnvelopes .enabled
        [.pickle { id := "p2", uri := "u2", steps := [] }]) :=
  C1_reload_rollback { isTextTerminal := true } .enabled
    [.pickle { id := "p2", uri := "u2", steps := [] }]
    { id := "tc2", testCaseId := "p2" }
    { testCaseStartedId := "tc2", testStepId := "st2" }
    { messages := [.pickle { id := "p2", uri := "u2", steps := [] }] }
    _ rfl (Or.inl rfl)

/-- C2, counterexample: on a buffer holding two testCaseStarted envelopes
with the same id (and two pickles with the same id), the lookup the source
performs on test-step-finished returns the first matching envelope, which
differs from the last matching one the claim describes. -/
theorem C2_counterexample :
    (findTestCaseStarted
      [.testCaseStarted { id := "a", testCaseId := "p1" },
       .testCaseStarted { id := "a", testCaseId := "p2" }] "a"
      = some { id := "a", testCaseId := "p1" })
    ∧ (specFindLastTestCaseStarted
      [.testCaseStarted { id := "a", testCaseId := "p1" },
       .testCaseStarted { id := "a", testCaseId := "p2" }] "a"
      = some { id := "a", testCaseId := "p2" })
    ∧ ({ id := "a", testCaseId := "p1" } : TestCaseStarted)
      ≠ { id := "a", testCaseId := "p2" }
    ∧ (findPickle
      [.pickle { id := "p", uri := "u1", steps := [] },
       .pickle { id := "p", uri := "u2", steps := [] }] "p"
      = some { id := "p", uri := "u1", steps := [] })
    ∧ (specFindLastPickle
      [.pickle { id := "p", uri := "u1", steps := [] },
       .pickle { id := "p", uri := "u2", steps := [] }] "p"
      = some { id := "p", uri := "u2", steps := [] })
    ∧ ({ id := "p", uri := "u1", steps := [] } : Pickle)
      ≠ { id := "p", uri := "u2", steps := [] } := by
  decide

/-- C2, amended: the testCaseStarted and pickle lookups performed by
test-step-finished resolution select the first matching envelope, scanning
from the start of the buffer, so the earliest received
compiledScenario/testCaseStarted with a given id wins. -/
theorem C2_first_match (l1 l2 : List Envelope) (targetId : String) :
    (∀ tc : TestCaseStarted, tc.id = targetId →
      (∀ t ∈ l1.filterMap Envelope.testCaseStarted?, t.id ≠ targetId) →
      findTestCaseStarted (l1 ++ .testCaseStarted tc :: l2) targetId = some tc)
    ∧ (∀ pk : Pickle, pk.id = targetId →
      (∀ q ∈ l1.filterMap Envelope.pickle?, q.id ≠ targetId) →
      findPickle (l1 ++ .pickle pk :: l2) targetId = some pk) := by
  constructor
  · intro tc hid hnone
    have h1 : (l1.filterMap Envelope.testCaseStarted?).find?
        (fun t => t.id == targetId) = none := by
      rw [List.find?_eq_none]
      intro x hx
      simp [hnone x hx]
    simp [findTestCaseStarted, List.filterMap_append, List.find?_append, h1,
      Envelope.testCaseStarted?, hid]
  · intro pk hid hnone
    have h1 : (l1.filterMap Envelope.pickle?).find?
        (fun p => p.id == targetId) = none := by
      rw [List.find?_eq_none]
      intro x hx
      simp [hnone x hx]
    simp [findPickle, List.filterMap_append, List.find?_append, h1,
      Envelope.pickle?, hid]

/-- C2, witness for the amended theorem at a concrete input. -/
theorem C2_first_match_witness :
    ((({ id := "a", testCaseId := "pX" } : TestCaseStarted)).id = "a")
    ∧ findTestCaseStarted
        [.gherkinDocument { uri := "u" },
         .testCaseStarted { id := "a", testCaseId := "pX" },
         .testCaseStarted { id := "a", testCaseId := "pY" }] "a"
      = some { id := "a", testCaseId := "pX" } := by
  refine ⟨rfl, ?_⟩
  have h := (C2_first_match [.gherkinDocument { uri := "u" }]
    [.testCaseStarted { id := "a", testCaseId := "pY" }] "a").1
    { id := "a", testCaseId := "pX" } rfl (by decide)
  simpa using h

/-- C3: in text-terminal mode with message output enabled, every event
whose source state is illegal per the transition table (spec-finished and
screenshot-captured excluded) makes its handler throw the state error whose
message names the offending handler and the current state, and the prior
state survives the failed invocation unchanged. -/
theorem C3_protocol_violation (config : Config) (preprocessor : Preprocessor)
    (e : Event) (s : State) (hT : config.isTextTerminal = true)
    (hM : preprocessor.messages.enabled = true)
    (hG : eventGuard e = true)
    (hIllegal : specLegalFrom e s = false) :
    handlerRun config preprocessor e s
      = .error (createStateError (handlerName e) (stateName s))
    ∧ machineStep config preprocessor e s = s
    ∧ ∃ tail, (createStateError (handlerName e) (stateName s)).message
        = "Unexpected state in " ++ handlerName e ++ ": " ++ stateName s ++ tail := by
  have herr : handlerRun config preprocessor e s
      = .error (createStateError (handlerName e) (stateName s)) := by
    cases e <;> cases s <;>
      simp_all [handlerRun, beforeSpecHandler, specEnvelopesHandler,
        testCaseStartedHandler, testStepStartedHandler, testStepFinishedHandler,
        testCaseFinishedHandler, createStringAttachmentHandler, specLegalFrom,
        eventGuard, stateName, handlerName]
  refine ⟨herr, ?_, ?_⟩
  · simp [machineStep, herr]
  · exact ⟨stateErrorTail, rfl⟩

/-- C3, witness at a concrete illegal pair (test-case-started in state
initial). -/
theorem C3_protocol_violation_witness :
    specLegalFrom (Event.testCaseStartedReceived { id := "a", testCaseId := "p" })
      State.initial = false
    ∧ handlerRun { isTextTerminal := true }
        { messages := { enabled := true }, json := { enabled := false },
          html := { enabled := false }, pretty := { enabled := false } }
        (Event.testCaseStartedReceived { id := "a", testCaseId := "p" })
        State.initial
      = .error (createStateError "testCaseStartedHandler" "initial")
    ∧ machineStep { isTextTerminal := true }
        { messages := { enabled := true }, json := { enabled := false },
          html := { enabled := false }, pretty := { enabled := false } }
        (Event.testCaseStartedReceived { id := "a", testCaseId := "p" })
        State.initial
      = State.initial := by
  have h := C3_protocol_violation { isTextTerminal := true }
    { messages := { enabled := true }, json := { enabled := false },
      html := { enabled := false }, pretty := { enabled := false } }
    (Event.testCaseStartedReceived { id := "a", testCaseId := "p" })
    State.initial rfl rfl (by decide) (by decide)
  exact ⟨by decide, by simpa using h.1, by simpa using h.2.1⟩

/-- C4: a text attachment made through the attach capability while a step
is open yields, for a media type starting with the base64 marker, an
attachment envelope with the marker stripped, BASE64 encoding and the body
unchanged, and, for no media type, an envelope with media type text/plain,
IDENTITY encoding and the body unchanged. -/
theorem C4_text_attachment (config : Config) (preprocessor : Preprocessor)
    (p : PrettyState) (msgs : List Envelope) (tcId tsId body : String)
    (hT : config.isTextTerminal = true)
    (hM : preprocessor.messages.enabled = true) :
    (∀ mt : String, strStartsWith mt "base64:" = true →
      attach (.str body) (some mt)
        = .ok { data := body, mediaType := strDrop mt (strLen "base64:"),
                encoding := .BASE64 }
      ∧ createStringAttachmentHandler config preprocessor
          { data := body, mediaType := strDrop mt (strLen "base64:"),
            encoding := .BASE64 }
          (.stepStarted p msgs tcId tsId)
        = .ok (.stepStarted p
            (msgs ++ [.attachment
              { testCaseStartedId := tcId, testStepId := tsId, body := body,
                mediaType := strDrop mt (strLen "base64:"),
                contentEncoding := .BASE64 }])
            tcId tsId))
    ∧ (attach (.str body) none
        = .ok { data := body, mediaType := "text/plain", encoding := .IDENTITY }
      ∧ createStringAttachmentHandler config preprocessor
          { data := body, mediaType := "text/plain", encoding := .IDENTITY }
          (.stepStarted p msgs tcId tsId)
        = .ok (.stepStarted p
            (msgs ++ [.attachment
              { testCaseStartedId := tcId, testStepId := tsId, body := body,
                mediaType := "text/plain", contentEncoding := .IDENTITY }])
            tcId tsId)) := by
  refine ⟨fun mt hmt => ⟨?_, ?_⟩, ?_, ?_⟩ <;>
    simp [attach, createStringAttachmentHandler, hT, hM, *]
  · decide

/-- C4, witness at the concrete inputs of the spec (media type
base64:image/png with body QUJD, and a body with no media type). -/
theorem C4_text_attachment_witness :
    strStartsWith "base64:image/png" "base64:" = true
    ∧ attach (.str "QUJD") (some "base64:image/png")
      = .ok { data := "QUJD", mediaType := "image/png", encoding := .BASE64 }
    ∧ createStringAttachmentHandler { isTextTerminal := true }
        { messages := { enabled := true }, json := { enabled := false },
          html := { enabled := false }, pretty := { enabled := false } }
        { data := "QUJD", mediaType := "image/png", encoding := .BASE64 }
        (.stepStarted .disabled [] "tc1" "st1")
      = .ok (.stepStarted .disabled
          [.attachment
            { testCaseStartedId := "tc1", testStepId := "st1", body := "QUJD",
              mediaType := "image/png", contentEncoding := .BASE64 }]
          "tc1" "st1")
    ∧ attach (.str "hello") none
      = .ok { data := "hello", mediaType := "text/plain", encoding := .IDENTITY } := by
  have h := C4_text_attachment { isTextTerminal := true }
    { messages := { enabled := true }, json := { enabled := false },
      html := { enabled := false }, pretty := { enabled := false } }
    .disabled [] "tc1" "st1" "QUJD" rfl rfl
  have hb := h.1 "base64:image/png" (by decide)
  have hdrop : strDrop "base64:image/png" (strLen "base64:") = "image/png" := by decide
  refine ⟨by decide, ?_, ?_, by decide⟩
  · simpa [hdrop] using hb.1
  · simpa [hdrop] using hb.2

/-- C5: a Buffer attachment with no media type is rejected with the
invalid-attachment error (and a hook performing such an attach call never
delivers any attachment, the collection failing as a whole), while a Buffer
attachment with a media type always yields a BASE64 envelope whose body is
the base64 encoding of the bytes. -/
theorem C5_buffer_attachment (config : Config) (preprocessor : Preprocessor)
    (p : PrettyState) (msgs : List Envelope) (tcId tsId : String) (b : List Nat)
    (hT : config.isTextTerminal = true)
    (hM : preprocessor.messages.enabled = true) :
    attach (.buf b) none
      = .error (.plainError "Buffer attachments must specify a media type")
    ∧ (∀ calls1 calls2, ∃ err, collectAttachments
        (calls1 ++ (AttachData.buf b, (none : Option String)) :: calls2)
        = .error err)
    ∧ (∀ mt : String,
        attach (.buf b) (some mt)
          = .ok { data := base64EncodeString b, mediaType := mt,
                  encoding := .BASE64 }
        ∧ createStringAttachmentHandler config preprocessor
            { data := base64EncodeString b, mediaType := mt, encoding := .BASE64 }
            (.stepStarted p msgs tcId tsId)
          = .ok (.stepStarted p
              (msgs ++ [.attachment
                { testCaseStartedId := tcId, testStepId := tsId,
                  body := base64EncodeString b, mediaType := mt,
                  contentEncoding := .BASE64 }])
              tcId tsId)) := by
  refine ⟨rfl, ?_, fun mt => ⟨rfl, ?_⟩⟩
  · intro calls1 calls2
    induction calls1 with
    | nil => exact ⟨_, rfl⟩
    | cons c rest ih =>
        obtain ⟨err, herr⟩ := ih
        cases hc : attach c.1 c.2 with
        | ok a =>
            exact ⟨err, by simp [collectAttachments, hc, herr, Bind.bind, Except.bind]⟩
        | error e2 =>
            exact ⟨e2, by simp [collectAttachments, hc, Bind.bind, Except.bind]⟩
  · simp [createStringAttachmentHandler, hT, hM]

/-- C5, witness at concrete bytes 65 66 67, whose base64 encoding is QUJD. -/
theorem C5_buffer_attachment_witness :
    attach (.buf [65, 66, 67]) none
      = .error (.plainError "Buffer attachments must specify a media type")
    ∧ attach (.buf [65, 66, 67]) (some "image/png")
      = .ok { data := "QUJD", mediaType := "image/png", encoding := .BASE64 }
    ∧ (∃ err, collectAttachments [(AttachData.buf [65, 66, 67], none)]
        = .error err) := by
  have h := C5_buffer_attachment { isTextTerminal := true }
    { messages := { enabled := true }, json := { enabled := false },
      html := { enabled := false }, pretty := { enabled := false } }
    .disabled [] "tc1" "st1" [65, 66, 67] rfl rfl
  refine ⟨h.1, ?_, ?_⟩
  · have := (h.2.2 "image/png").1
    simpa [(by decide : base64EncodeString [65, 66, 67] = "QUJD")] using this
  · simpa using h.2.1 [] []

/-- C6: a screenshot-captured event in any state other than step-started
produces no envelope and returns state and details unchanged; the details
are returned untouched in every case; only in step-started (and with a
successful file read) is an attachment envelope referencing the open test
case and step appended to the buffer. -/
theorem C6_screenshot_gating (config : Config) (preprocessor : Preprocessor)
    (details : ScreenshotDetails) :
    (∀ (fileBytes : Option (List Nat)) (s : State),
      stateName s ≠ "step-started" →
      afterScreenshotHandler config preprocessor details fileBytes s = (s, details))
    ∧ (∀ (fileBytes : Option (List Nat)) (s : State),
      (afterScreenshotHandler config preprocessor details fileBytes s).2 = details)
    ∧ (∀ (p : PrettyState) (msgs : List Envelope) (tcId tsId : String)
        (bytes : List Nat),
      config.isTextTerminal = true → preprocessor.messages.enabled = true →
      afterScreenshotHandler config preprocessor details (some bytes)
        (.stepStarted p msgs tcId tsId)
        = (.stepStarted p
            (msgs ++ [.attachment
              { testCaseStartedId := tcId, testStepId := tsId,
                body := base64EncodeString bytes, mediaType := "image/png",
                contentEncoding := .BASE64 }])
            tcId tsId,
           details)) := by
  refine ⟨?_, ?_, ?_⟩
  · intro fileBytes s hs
    cases s <;> simp_all [afterScreenshotHandler, stateName]
  · intro fileBytes s
    cases s <;> cases fileBytes <;>
      simp [afterScreenshotHandler, apply_ite Prod.snd]
  · intro p msgs tcId tsId bytes hT hM
    simp [afterScreenshotHandler, hT, hM]

/-- C6, witness in state initial (pass-through) and in step-started
(attachment appended). -/
theorem C6_screenshot_gating_witness :
    stateName State.initial ≠ "step-started"
    ∧ afterScreenshotHandler { isTextTerminal := true }
        { messages := { enabled := true }, json := { enabled := false },
          html := { enabled := false }, pretty := { enabled := false } }
        { path := "sc.png" } (some [65, 66, 67]) State.initial
      = (State.initial, { path := "sc.png" })
    ∧ afterScreenshotHandler { isTextTerminal := true }
        { messages := { enabled := true }, json := { enabled := false },
          html := { enabled := false }, pretty := { enabled := false } }
        { path := "sc.png" } (some [65, 66, 67])
        (.stepStarted .disabled [] "tc1" "st1")
      = (.stepStarted .disabled
          [.attachment
            { testCaseStartedId := "tc1", testStepId := "st1", body := "QUJD",
              mediaType := "image/png", contentEncoding := .BASE64 }]
          "tc1" "st1",
         { path := "sc.png" }) := by
  have h := C6_screenshot_gating { isTextTerminal := true }
    { messages := { enabled := true }, json := { enabled := false },
      html := { enabled := false }, pretty := { enabled := false } }
    { path := "sc.png" }
  refine ⟨by decide, h.1 (some [65, 66, 67]) State.initial (by decide), ?_⟩
  have h3 := h.2.2 .disabled [] "tc1" "st1" [65, 66, 67] rfl rfl
  simpa [(by decide : base64EncodeString [65, 66, 67] = "QUJD")] using h3

/-- C7: on spec-finished with results present and message output enabled, a
hook-failure skip discards the buffered envelopes (the log is unchanged and
only the notice is emitted), otherwise a state carrying a buffer has it
appended whole to the log; in both cases the state becomes after-spec and
an open pretty channel is the one reported closed. -/
theorem C7_spec_finished_flush (config : Config) (preprocessor : Preprocessor)
    (matchHookFailure : String → Bool) (spec : Spec) (r : RunResult)
    (s : State) (log : Option (List Envelope))
    (hT : config.isTextTerminal = true) (hF : isFeature spec = true)
    (hM : preprocessor.messages.enabled = true) :
    (wasRemainingSkipped matchHookFailure r = true →
      afterSpecHandler config preprocessor matchHookFailure spec (some r) s log
        = { state := .afterSpec, log := log, hookFailureNotice := true,
            prettyClosed := prettyOpen s })
    ∧ (∀ msgs, wasRemainingSkipped matchHookFailure r = false →
      State.messages? s = some msgs →
      afterSpecHandler config preprocessor matchHookFailure spec (some r) s log
        = { state := .afterSpec, log := appendToLog log msgs,
            hookFailureNotice := false, prettyClosed := prettyOpen s }) := by
  constructor
  · intro hskip
    simp [afterSpecHandler, hT, hF, hM, hskip]
  · intro msgs hskip hmsgs
    simp [afterSpecHandler, hT, hF, hM, hskip, hmsgs]

/-- C7, witness: a hook-failure spec keeps the log unchanged with the
notice, a clean spec flushes its buffer. -/
theorem C7_spec_finished_flush_witness :
    wasRemainingSkipped hookFailureAlways
        { tests := [{ displayError := some "hook failed" }] } = true
    ∧ afterSpecHandler { isTextTerminal := true }
        { messages := { enabled := true }, json := { enabled := false },
          html := { enabled := false }, pretty := { enabled := false } }
        hookFailureAlways { name := "a.feature" }
        (some { tests := [{ displayError := some "hook failed" }] })
        (.testFinished .disabled [.testCaseFinished { testCaseStartedId := "tc1" }])
        (some [.testRunStarted { timestamp := 3 }])
      = { state := .afterSpec,
          log := some [.testRunStarted { timestamp := 3 }],
          hookFailureNotice := true, prettyClosed := false }
    ∧ wasRemainingSkipped hookFailureNever
        { tests := [{ displayError := some "hook failed" }] } = false
    ∧ afterSpecHandler { isTextTerminal := true }
        { messages := { enabled := true }, json := { enabled := false },
          html := { enabled := false }, pretty := { enabled := false } }
        hookFailureNever { name := "a.feature" }
        (some { tests := [{ displayError := some "hook failed" }] })
        (.testFinished .disabled [.testCaseFinished { testCaseStartedId := "tc1" }])
        (some [])
      = { state := .afterSpec,
          log := some [.testCaseFinished { testCaseStartedId := "tc1" }],
          hookFailureNotice := false, prettyClosed := false } := by
  refine ⟨by decide, ?_, by decide, ?_⟩
  · have h := (C7_spec_finished_flush { isTextTerminal := true }
      { messages := { enabled := true }, json := { enabled := false },
        html := { enabled := false }, pretty := { enabled := false } }
      hookFailureAlways { name := "a.feature" }
      { tests := [{ displayError := some "hook failed" }] }
      (.testFinished .disabled [.testCaseFinished { testCaseStartedId := "tc1" }])
      (some [.testRunStarted { timestamp := 3 }])
      rfl (by decide) rfl).1 (by decide)
    simpa [prettyOpen, State.pretty?, PrettyState.isEnabled] using h
  · have h := (C7_spec_finished_flush { isTextTerminal := true }
      { messages := { enabled := true }, json := { enabled := false },
        html := { enabled := false }, pretty := { enabled := false } }
      hookFailureNever { name := "a.feature" }
      { tests := [{ displayError := some "hook failed" }] }
      (.testFinished .disabled [.testCaseFinished { testCaseStartedId := "tc1" }])
      (some []) rfl (by decide) rfl).2
      [.testCaseFinished { testCaseStartedId := "tc1" }] (by decide) (by decide)
    simpa [prettyOpen, State.pretty?, PrettyState.isEnabled, appendToLog] using h

/-- A successful testStepFinishedHandler invocation with no hook
attachments turns step-started into step-finished with exactly the
testStepFinished envelope appended. -/
theorem testStepFinishedHandler_append (config : Config)
    (preprocessor : Preprocessor) (hT : config.isTextTerminal = true) :
    ∀ (p : PrettyState) (m : List Envelope) (tcId tsId : String)
      (tsf : TestStepFinished) (s1 : State),
      testStepFinishedHandler config preprocessor [] tsf
          (.stepStarted p m tcId tsId) = .ok s1 →
      s1 = .stepFinished p (m ++ [.testStepFinished tsf]) tcId := by
  intro p m tcId tsId tsf s1 h
  simp only [testStepFinishedHandler, hT, Bool.not_true, Bool.false_eq_true,
    if_false] at h
  cases h1 : findTestCaseStarted m tsf.testCaseStartedId with
  | none => simp [assertAndReturn, h1, Bind.bind, Except.bind] at h
  | some tcs =>
  cases h2 : findTestCase m tcs.testCaseId with
  | none => simp [assertAndReturn, h1, h2, Bind.bind, Except.bind] at h
  | some tcse =>
  cases h3 : tcse.testSteps.find? (fun t => t.id == tsf.testStepId) with
  | none => simp [assertAndReturn, h1, h2, h3, Bind.bind, Except.bind] at h
  | some testStep =>
  cases h4 : testStep.pickleStepId with
  | some pickleStepId =>
      cases h5 : findPickle m tcs.testCaseId with
      | none => simp_all [assertAndReturn, Bind.bind, Except.bind]
      | some pickle =>
      cases h6 : pickle.steps.find? (fun st => st.id == pickleStepId) with
      | none => simp_all [assertAndReturn, Bind.bind, Except.bind]
      | some pickleStep =>
      cases h7 : findGherkinDocument m pickle.uri with
      | none => simp_all [assertAndReturn, Bind.bind, Except.bind]
      | some doc =>
          simp_all [assertAndReturn, Bind.bind, Except.bind,
            collectAttachments, applyStringAttachments,
            State.prettyD, State.messagesD, State.messages?, State.pretty?,
            State.testCaseStartedIdD]
  | none =>
      cases h5 : testStep.hookId with
      | some hookId => simp_all [assertAndReturn, Bind.bind, Except.bind]
      | none => simp_all [assertAndReturn, Bind.bind, Except.bind]

/-- C8: each buffer-appending event, processed from a legal source state,
extends the buffer with exactly one envelope at the end, and that last
envelope corresponds to the event just processed. -/
theorem C8_buffer_append (config : Config) (preprocessor : Preprocessor)
    (hT : config.isTextTerminal = true)
    (hM : preprocessor.messages.enabled = true) :
    (∀ (p : PrettyState) (m : List Envelope) (d : TestCaseStarted),
      testCaseStartedHandler config d (.receivedEnvelopes p m)
        = .ok (.testStarted p (m ++ [.testCaseStarted d]) d.id)
      ∧ testCaseStartedHandler config d (.testFinished p m)
        = .ok (.testStarted p (m ++ [.testCaseStarted d]) d.id))
    ∧ (∀ (p : PrettyState) (m : List Envelope) (tcId tsId : String)
        (d : TestStepStarted),
      testStepStartedHandler config d (.testStarted p m tcId)
        = .ok (.stepStarted p (m ++ [.testStepStarted d]) tcId d.testStepId)
      ∧ testStepStartedHandler config d (.stepFinished p m tcId)
        = .ok (.stepStarted p (m ++ [.testStepStarted d]) tcId d.testStepId)
      ∧ testStepStartedHandler config d (.stepStarted p m tcId tsId)
        = .ok (.stepStarted p (m ++ [.testStepStarted d]) tcId d.testStepId))
    ∧ (∀ (p : PrettyState) (m : List Envelope) (tcId tsId : String)
        (tsf : TestStepFinished) (s1 : State),
      testStepFinishedHandler config preprocessor [] tsf
          (.stepStarted p m tcId tsId) = .ok s1 →
      s1 = .stepFinished p (m ++ [.testStepFinished tsf]) tcId)
    ∧ (∀ (p : PrettyState) (m : List Envelope) (tcId : String)
        (d : TestCaseFinished),
      testCaseFinishedHandler config d (.testStarted p m tcId)
        = .ok (.testFinished p (m ++ [.testCaseFinished d]))
      ∧ testCaseFinishedHandler config d (.stepFinished p m tcId)
        = .ok (.testFinished p (m ++ [.testCaseFinished d])))
    ∧ (∀ (p : PrettyState) (m : List Envelope) (tcId tsId : String)
        (bytes : List Nat) (details : ScreenshotDetails),
      afterScreenshotHandler config preprocessor details (some bytes)
          (.stepStarted p m tcId tsId)
        = (.stepStarted p
            (m ++ [.attachment
              { testCaseStartedId := tcId, testStepId := tsId,
                body := base64EncodeString bytes, mediaType := "image/png",
                contentEncoding := .BASE64 }])
            tcId tsId, details))
    ∧ (∀ (p : PrettyState) (m : List Envelope) (tcId tsId : String)
        (task : ITaskCreateStringAttachment),
      createStringAttachmentHandler config preprocessor task
          (.stepStarted p m tcId tsId)
        = .ok (.stepStarted p
            (m ++ [.attachment
              { testCaseStartedId := tcId, testStepId := tsId,
                body := task.data, mediaType := task.mediaType,
                contentEncoding := task.encoding }])
            tcId tsId)) := by
  refine ⟨?_, ?_, testStepFinishedHandler_append config preprocessor hT, ?_, ?_, ?_⟩
  · intro p m d
    exact ⟨by simp [testCaseStartedHandler, hT], by simp [testCaseStartedHandler, hT]⟩
  · intro p m tcId tsId d
    refine ⟨?_, ?_, ?_⟩ <;> simp [testStepStartedHandler, hT]
  · intro p m tcId d
    exact ⟨by simp [testCaseFinishedHandler, hT], by simp [testCaseFinishedHandler, hT]⟩
  · intro p m tcId tsId bytes details
    simp [afterScreenshotHandler, hT, hM]
  · intro p m tcId tsId task
    simp [createStringAttachmentHandler, hT, hM]

/-- C8, witness at concrete inputs for the first two appending events. -/
theorem C8_buffer_append_witness :
    testCaseStartedHandler { isTextTerminal := true }
        { id := "tc1", testCaseId := "p1" }
        (.receivedEnvelopes .disabled [.pickle { id := "p1", uri := "u", steps := [] }])
      = .ok (.testStarted .disabled
          [.pickle { id := "p1", uri := "u", steps := [] },
           .testCaseStarted { id := "tc1", testCaseId := "p1" }]
          "tc1")
    ∧ testStepStartedHandler { isTextTerminal := true }
        { testCaseStartedId := "tc1", testStepId := "st1" }
        (.testStarted .disabled [] "tc1")
      = .ok (.stepStarted .disabled
          [.testStepStarted { testCaseStartedId := "tc1", testStepId := "st1" }]
          "tc1" "st1") := by
  have h := C8_buffer_append { isTextTerminal := true }
    { messages := { enabled := true }, json := { enabled := false },
      html := { enabled := false }, pretty := { enabled := false } }
    rfl rfl
  refine ⟨?_, ?_⟩
  · have := (h.1 .disabled [.pickle { id := "p1", uri := "u", steps := [] }]
      { id := "tc1", testCaseId := "p1" }).1
    simpa using this
  · have := (h.2.1 .disabled [] "tc1" "stX"
      { testCaseStartedId := "tc1", testStepId := "st1" }).1
    simpa using this

/-- afterSpecHandler only ever appends to an existing message log file. -/
theorem afterSpecHandler_log_extend (config : Config)
    (preprocessor : Preprocessor) (matchHookFailure : String → Bool)
    (spec : Spec) (results : Option RunResult) (s : State)
    (l : List Envelope) :
    ∃ extra, (afterSpecHandler config preprocessor matchHookFailure spec
      results s (some l)).log = some (l ++ extra) := by
  rw [afterSpecHandler.eq_def]
  split
  · exact ⟨[], by simp⟩
  · cases results with
    | none => exact ⟨[], by simp⟩
    | some r =>
        by_cases hm : preprocessor.messages.enabled = true
        · by_cases hs : wasRemainingSkipped matchHookFailure r = true
          · exact ⟨[], by simp [hm, hs]⟩
          · cases hmsgs : State.messages? s with
            | none => exact ⟨[], by simp [hm, hs, hmsgs]⟩
            | some msgs => exact ⟨msgs, by simp [hm, hs, hmsgs, appendToLog]⟩
        · exact ⟨[], by simp [hm]⟩

/-- A sequence of afterSpecHandler invocations only ever appends to an
existing message log file. -/
theorem specFlushLog_extend (config : Config) (preprocessor : Preprocessor)
    (matchHookFailure : String → Bool)
    (steps : List (Spec × Option RunResult × State)) :
    ∀ l : List Envelope, ∃ extra,
      specFlushLog config preprocessor matchHookFailure steps (some l)
        = some (l ++ extra) := by
  induction steps with
  | nil => exact fun l => ⟨[], by simp [specFlushLog]⟩
  | cons step rest ih =>
      intro l
      obtain ⟨e1, he1⟩ := afterSpecHandler_log_extend config preprocessor
        matchHookFailure step.1 step.2.1 step.2.2 l
      obtain ⟨e2, he2⟩ := ih (l ++ e1)
      refine ⟨e1 ++ e2, ?_⟩
      simp only [specFlushLog, List.foldl_cons] at *
      rw [he1, he2, List.append_assoc]

/-- C9: with message output enabled, the run log after run start, any
sequence of spec flushes and run end begins with the meta envelope followed
by the testRunStarted envelope and ends with a testRunFinished envelope
carrying a timestamp and no success flag. -/
theorem C9_run_log_shape (config : Config) (preprocessor : Preprocessor)
    (matchHookFailure : String → Bool) (m : Meta) (t1 t2 : Nat)
    (steps : List (Spec × Option RunResult × State))
    (file0 : Option (List Envelope))
    (hT : config.isTextTerminal = true)
    (hM : preprocessor.messages.enabled = true) :
    ∃ mid, afterRunFile config preprocessor t2
      (specFlushLog config preprocessor matchHookFailure steps
        (beforeRunFile config preprocessor m t1 file0))
      = some (Envelope.meta m :: Envelope.testRunStarted { timestamp := t1 }
          :: (mid ++ [Envelope.testRunFinished { timestamp := t2, success := none }])) := by
  have hbefore : beforeRunFile config preprocessor m t1 file0
      = some [.meta m, .testRunStarted { timestamp := t1 }] := by
    simp [beforeRunFile, hT, hM]
  rw [hbefore]
  obtain ⟨extra, hextra⟩ := specFlushLog_extend config preprocessor
    matchHookFailure steps [.meta m, .testRunStarted { timestamp := t1 }]
  rw [hextra]
  refine ⟨extra, ?_⟩
  simp [afterRunFile, hT, hM]

/-- C9, witness at one concrete run with one flushed spec. -/
theorem C9_run_log_shape_witness :
    ∃ mid, afterRunFile { isTextTerminal := true }
      { messages := { enabled := true }, json := { enabled := false },
        html := { enabled := false }, pretty := { enabled := false } } 9
      (specFlushLog { isTextTerminal := true }
        { messages := { enabled := true }, json := { enabled := false },
          html := { enabled := false }, pretty := { enabled := false } }
        hookFailureNever
        [({ name := "a.feature" },
          some { tests := [{ displayError := none }] },
          State.testFinished .disabled
            [.testCaseFinished { testCaseStartedId := "tc1" }])]
        (beforeRunFile { isTextTerminal := true }
          { messages := { enabled := true }, json := { enabled := false },
            html := { enabled := false }, pretty := { enabled := false } }
          { protocolVersion := "22", implementationName := "ccp",
            implementationVersion := "1", cpuName := "x64", osName := "linux",
            osVersion := "6", runtimeName := "node.js", runtimeVersion := "20" }
          3 none))
      = some (Envelope.meta
          { protocolVersion := "22", implementationName := "ccp",
            implementationVersion := "1", cpuName := "x64", osName := "linux",
            osVersion := "6", runtimeName := "node.js", runtimeVersion := "20" }
          :: Envelope.testRunStarted { timestamp := 3 }
          :: (mid ++ [Envelope.testRunFinished { timestamp := 9, success := none }])) :=
  C9_run_log_shape { isTextTerminal := true }
    { messages := { enabled := true }, json := { enabled := false },
      html := { enabled := false }, pretty := { enabled := false } }
    hookFailureNever
    { protocolVersion := "22", implementationName := "ccp",
      implementationVersion := "1", cpuName := "x64", osName := "linux",
      osVersion := "6", runtimeName := "node.js", runtimeVersion := "20" }
    3 9
    [({ name := "a.feature" },
      some { tests := [{ displayError := none }] },
      State.testFinished .disabled
        [.testCaseFinished { testCaseStartedId := "tc1" }])]
    none rfl rfl

/-- C10: a screenshot-captured event in step-started whose file read fails
returns the details unchanged, throws no error and appends no envelope, and
in every state and read outcome the handler returns the details object it
was given. -/
theorem C10_screenshot_read_failure (config : Config)
    (preprocessor : Preprocessor) (details : ScreenshotDetails) :
    (∀ (p : PrettyState) (msgs : List Envelope) (tcId tsId : String),
      afterScreenshotHandler config preprocessor details none
        (.stepStarted p msgs tcId tsId)
        = (.stepStarted p msgs tcId tsId, details))
    ∧ (∀ (fileBytes : Option (List Nat)) (s : State),
      (afterScreenshotHandler config preprocessor details fileBytes s).2
        = details) := by
  refine ⟨?_, ?_⟩
  · intro p msgs tcId tsId
    simp [afterScreenshotHandler]
  · intro fileBytes s
    cases s <;> cases fileBytes <;>
      simp [afterScreenshotHandler, apply_ite Prod.snd]
